import Mathlib

/-!
Verification of the 1inch trading client against its specification.

The development shallowly embeds the JavaScript client found in the repository:

* `OneInchTradingApp` (src/unnamed/part_002) — the rate-limited, cached
  gateway client: pacing (`rateLimitedRequest`), token/protocol caching
  (`getSupportedTokens`, `getSupportedProtocols`), and the typed request
  builders (`getQuote`, `buildSwap`, `buildApproval`).
* The Express proxy (src/backend-server.js) — `/api/tokens`, `/api/quote`
  and sibling endpoints.
* `OneInchAPI.buildSwap` in the live-test client (src/test-1inch-live.js).

Times are integer milliseconds (`Date.now()` values).  JavaScript numbers
that participate in the embedded logic are integers here; the only numeric
code path this loses is the floating-point `rate` field of a quote, which no
claim concerns and which is left out of the model.  Outbound HTTP traffic is
modelled by oracle parameters: the environment chooses the response each
attempted fetch would receive, and the definitions record how many fetches
the code actually performs and what it does with the responses.
-/

namespace OneInch

/-- `this.requestInterval` (part_002 line 27): 1 second between requests. -/
def requestInterval : Int := 1000

/-- `this.cacheExpiry` (part_002 line 32): 5 minutes. -/
def cacheExpiry : Int := 300000

/-- The pacing state shared by all outbound calls of one client instance:
`this.lastRequest` (part_002 line 26), initially 0. -/
structure Gate where
  lastRequest : Int
deriving Repr, DecidableEq

/-- One *sequential* (non-overlapping) run of the pacing prologue of
`rateLimitedRequest` (part_002 lines 48-58) by a caller entering at time `t`:
if less than `requestInterval` has elapsed since `lastRequest` the caller
sleeps for the remainder, waking at `t + (interval - (t - lastRequest))`;
it then stores the current time into `lastRequest` and dispatches the fetch.
Returns the updated gate and the dispatch time. -/
def rateLimitedDispatch (interval : Int) (g : Gate) (t : Int) : Gate × Int :=
  if t - g.lastRequest < interval then
    (⟨t + (interval - (t - g.lastRequest))⟩, t + (interval - (t - g.lastRequest)))
  else
    (⟨t⟩, t)

/-- The first event-loop slice of `rateLimitedRequest` run by one of several
concurrent callers at time `t` (part_002 lines 49-58): either no sleep is
needed — the caller writes `lastRequest` and dispatches within the same
synchronous slice — or the caller computes its wake-up time and suspends
*without touching* `lastRequest`. -/
inductive Slice where
  | dispatched (g : Gate) (time : Int)
  | sleeping (wake : Int)
deriving Repr, DecidableEq

/-- part_002 lines 49-58, as seen from a single event-loop slice. -/
def sliceAt (interval : Int) (g : Gate) (t : Int) : Slice :=
  if t - g.lastRequest < interval then
    .sleeping (t + (interval - (t - g.lastRequest)))
  else
    .dispatched ⟨t⟩ t

/-- The resumption of a caller that slept (part_002 line 58 onward): at its
wake time it stores the current time into `lastRequest` and dispatches —
it does not re-check the gate. -/
def wakeSlice (wake : Int) : Gate × Int := (⟨wake⟩, wake)

/-- The dispatch times produced when `n` logical operations invoke
`rateLimitedRequest` concurrently at time `T` on gate `g`, following the
Node.js event loop: the callers' first slices run back to back (in
submission order) within the tick at `T`; callers that slept resume at
their wake times, timers with equal deadlines firing in FIFO order, and a
resumed caller dispatches immediately (`wakeSlice`). -/
def concurrentDispatches (interval : Int) (g : Gate) (T : Int) (n : Nat) : List Int :=
  let firstPass := (List.range n).foldl
    (fun (acc : Gate × List Int × List Int) _ =>
      match sliceAt interval acc.1 T with
      | .dispatched g2 d => (g2, acc.2.1 ++ [d], acc.2.2)
      | .sleeping w => (acc.1, acc.2.1, acc.2.2 ++ [w]))
    (g, [], [])
  firstPass.2.1 ++ firstPass.2.2.map (fun w => (wakeSlice w).2)

/-- The dispatch times of a sequence of non-overlapping calls through the
gate, the next call entering at the next listed time. -/
def seqDispatches (interval : Int) (g : Gate) : List Int → List Int
  | [] => []
  | t :: ts =>
      (rateLimitedDispatch interval g t).2 ::
        seqDispatches interval (rateLimitedDispatch interval g t).1 ts

/-- The outcome of one attempted upstream fetch, as the client observes it:
either an HTTP 2xx whose JSON body parsed to `α`, or a non-2xx response with
its status and body text (`!response.ok`, part_002 lines 65-68). -/
inductive FetchOutcome (α : Type) where
  | ok (body : α)
  | httpError (status : Nat) (text : String)
deriving Repr, DecidableEq

/-- The response handling of `rateLimitedRequest` (part_002 lines 65-70): a
non-ok response throws `HTTP <status>: <body>`; an ok response yields its
parsed JSON body. -/
def FetchOutcome.toResult {α : Type} : FetchOutcome α → Except String α
  | .ok b => .ok b
  | .httpError s t => .error ("HTTP " ++ toString s ++ ": " ++ t)

/-- The fetch discipline of `rateLimitedRequest` (part_002 lines 48-71):
exactly one fetch is performed per call.  `upstream k` is the response the
server would return to the (k+1)-th attempt; the code consults only
`upstream 0` — the function body contains no retry loop for any status.
Returns the surfaced result and the number of upstream attempts made. -/
def requestAttempts {α : Type} (upstream : Nat → FetchOutcome α) :
    Except String α × Nat :=
  ((upstream 0).toResult, 1)

/-- A JavaScript value in an options object, as far as the embedded code
inspects one: absent (`undefined`), `null`, a number, or a string.  Numbers
are restricted to integers, which covers every truthiness distinction the
claims need (`0` is falsy, every other number truthy). -/
inductive JSValue where
  | undef
  | null
  | num (n : Int)
  | str (s : String)
deriving Repr, DecidableEq

/-- JavaScript truthiness, for the values above: `undefined`, `null`, `0` and
`""` are falsy; everything else is truthy. -/
def JSValue.truthy : JSValue → Bool
  | .undef => false
  | .null => false
  | .num n => n != 0
  | .str s => s != ""

/-- The string a value turns into when appended to `URLSearchParams` (or when
`.toString()` is called on it). -/
def JSValue.render : JSValue → String
  | .undef => "undefined"
  | .null => "null"
  | .num n => toString n
  | .str s => s

/-- A token record as the upstream token list carries it (the `Token`
interface in the frontend client and §3 of the spec). -/
structure Token where
  address : String
  symbol : String
  name : String
  decimals : Nat
deriving Repr, DecidableEq

/-- The `tokens` object of a GET /tokens body: an address-keyed mapping. -/
abbrev TokensMap := List (String × Token)

/-- The parsed body of a successful GET /tokens: the client caches its
`tokens` field (part_002 line 85). -/
structure TokensResult where
  tokens : TokensMap
deriving Repr, DecidableEq

/-- A protocol record (part_002 lines 128-132). -/
structure Protocol where
  id : String
  title : String
deriving Repr, DecidableEq

/-- The parsed body of a successful protocols fetch: either an object with a
`protocols` field or a bare array; `result.protocols || result`
(part_002 lines 114, 117) extracts the list either way — a JavaScript array
is truthy even when empty, so a present `protocols` field always wins. -/
inductive ProtocolsBody where
  | wrapped (protocols : List Protocol)
  | bare (protocols : List Protocol)
deriving Repr, DecidableEq

/-- `result.protocols || result` (part_002 lines 114, 117). -/
def ProtocolsBody.extract : ProtocolsBody → List Protocol
  | .wrapped ps => ps
  | .bare ps => ps

/-- The hard-coded fallback list (part_002 lines 127-133). -/
def mockProtocols : List Protocol :=
  [⟨"UNISWAP_V2", "Uniswap V2"⟩,
   ⟨"UNISWAP_V3", "Uniswap V3"⟩,
   ⟨"SUSHISWAP", "SushiSwap"⟩,
   ⟨"CURVE", "Curve"⟩,
   ⟨"BALANCER", "Balancer"⟩]

/-- The mutable state of one `OneInchTradingApp` instance (part_002 lines
26-34): the pacing gate and the two caches with their timestamps. -/
structure AppState where
  gate : Gate
  tokensCache : Option TokensMap
  tokensCacheTime : Int
  protocolsCache : Option (List Protocol)
  protocolsCacheTime : Int
deriving Repr, DecidableEq

/-- A freshly constructed client (part_002 lines 26-34): idle gate, empty
caches, zero timestamps. -/
def initialState : AppState := ⟨⟨0⟩, none, 0, none, 0⟩

/-- The cache-miss path of `getSupportedTokens` (part_002 lines 81-89): one
paced fetch; on success `result.tokens` is stored with timestamp `now` — the
value read at entry (line 75), not the time the response arrived — and on
failure the throw from `rateLimitedRequest` propagates before either cache
assignment runs, so both cache fields keep their previous values (the gate's
`lastRequest` was already written before the fetch). -/
def getSupportedTokensMiss (st : AppState) (now done : Int)
    (fetch : FetchOutcome TokensResult) :
    AppState × Except String TokensMap × Nat × Int :=
  let g := (rateLimitedDispatch requestInterval st.gate now).1
  match fetch with
  | .ok r =>
      ({ st with gate := g, tokensCache := some r.tokens, tokensCacheTime := now },
       .ok r.tokens, 1, done)
  | .httpError s t =>
      ({ st with gate := g },
       .error ("HTTP " ++ toString s ++ ": " ++ t), 1, done)

/-- One `getSupportedTokens` call (part_002 lines 74-90).  `now` is the
`Date.now()` read at entry (line 75); `done` is the wall-clock time at which
the call returns — for a miss, the instant the awaited fetch resolved and
the cache assignment executed (a fresh hit returns within the same tick, at
`now`).  Returns (state after the call, result, number of outbound HTTP
requests this call issued, completion time). -/
def getSupportedTokens (st : AppState) (now done : Int)
    (fetch : FetchOutcome TokensResult) :
    AppState × Except String TokensMap × Nat × Int :=
  match st.tokensCache with
  | some c =>
      if now - st.tokensCacheTime < cacheExpiry then (st, .ok c, 0, now)
      else getSupportedTokensMiss st now done fetch
  | none => getSupportedTokensMiss st now done fetch

/-- The endpoint loop of `getSupportedProtocols` (part_002 lines 109-123):
the three protocol endpoints are tried in order; the first success ends the
loop, a failure is logged and the loop moves on.  Successive attempts happen
at later wall-clock instants; neither the loop's result nor the number of
attempts depends on those instants, so every dispatch is modelled at the
call's entry time `now`.  Returns the gate after the attempts, the first
successful body's protocol list (if any), and the number of attempts. -/
def tryEndpoints (g : Gate) (now : Int) :
    List (FetchOutcome ProtocolsBody) → Gate × Option (List Protocol) × Nat
  | [] => (g, none, 0)
  | f :: fs =>
      let g2 := (rateLimitedDispatch requestInterval g now).1
      match f with
      | .ok body => (g2, some body.extract, 1)
      | .httpError _ _ =>
          let r := tryEndpoints g2 now fs
          (r.1, r.2.1, r.2.2 + 1)

/-- The cache-miss path of `getSupportedProtocols` (part_002 lines 100-138):
the first successful endpoint's list is cached (timestamped `now`, read at
line 94) and returned; if *every* endpoint fails, the hard-coded mock list is
cached and returned as a success — no error reaches the caller. -/
def getSupportedProtocolsMiss (st : AppState) (now : Int)
    (fetches : List (FetchOutcome ProtocolsBody)) :
    AppState × Except String (List Protocol) × Nat :=
  let r := tryEndpoints st.gate now fetches
  match r.2.1 with
  | some ps =>
      ({ st with
          gate := r.1
          protocolsCache := some ps
          protocolsCacheTime := now },
       .ok ps, r.2.2)
  | none =>
      ({ st with
          gate := r.1
          protocolsCache := some mockProtocols
          protocolsCacheTime := now },
       .ok mockProtocols, r.2.2)

/-- One `getSupportedProtocols` call (part_002 lines 93-139).  `fetches`
lists, in order, the outcome each of the three endpoint URLs (lines 103-107)
would produce; the theorems below instantiate it with three entries. -/
def getSupportedProtocols (st : AppState) (now : Int)
    (fetches : List (FetchOutcome ProtocolsBody)) :
    AppState × Except String (List Protocol) × Nat :=
  match st.protocolsCache with
  | some c =>
      if now - st.protocolsCacheTime < cacheExpiry then (st, .ok c, 0)
      else getSupportedProtocolsMiss st now fetches
  | none => getSupportedProtocolsMiss st now fetches

/-- The options object of `getQuote` (part_002 lines 148-150). -/
structure QuoteOpts where
  slippage : JSValue
  protocols : JSValue
  fee : JSValue
deriving Repr, DecidableEq

/-- The query parameters `getQuote` appends, in order (part_002 lines
143-150): `src`, `dst`, `amount` always; `slippage`, `protocols`, `fee` only
when the corresponding option is truthy. -/
def getQuoteParams (src dst amount : String) (opts : QuoteOpts) :
    List (String × String) :=
  [("src", src), ("dst", dst), ("amount", amount)]
    ++ (if opts.slippage.truthy then [("slippage", opts.slippage.render)] else [])
    ++ (if opts.protocols.truthy then [("protocols", opts.protocols.render)] else [])
    ++ (if opts.fee.truthy then [("fee", opts.fee.render)] else [])

/-- The parsed body of a successful GET /quote.  The client reads only
`dstAmount`; the remaining upstream fields are carried opaquely and spread
unchanged into the returned object (part_002 line 157). -/
structure QuoteBody where
  dstAmount : String
  otherFields : List (String × String)
deriving Repr, DecidableEq

/-- The object `getQuote` returns on success (part_002 lines 156-161): the
upstream body spread unchanged, plus `outputAmount := result.dstAmount` and
`inputAmount := amount`.  The `rate` field — IEEE-754 division of two
`Number(...)` coercions (line 160) — is not modelled; no claim concerns it. -/
structure QuoteResult where
  body : QuoteBody
  outputAmount : String
  inputAmount : String
deriving Repr, DecidableEq

/-- part_002 lines 156-161. -/
def quoteReturn (amount : String) (body : QuoteBody) : QuoteResult :=
  { body := body, outputAmount := body.dstAmount, inputAmount := amount }

/-- One `getQuote` call (part_002 lines 142-162): the query is built from the
arguments — the function has no validation branch, every call reaches
`rateLimitedRequest` — one paced fetch is made, and its body, on success, is
wrapped by `quoteReturn`.  Returns (state after the call, result, number of
outbound HTTP requests issued, the query parameters sent). -/
def getQuote (st : AppState) (now : Int) (src dst amount : String)
    (opts : QuoteOpts) (fetch : FetchOutcome QuoteBody) :
    AppState × Except String QuoteResult × Nat × List (String × String) :=
  ({ st with gate := (rateLimitedDispatch requestInterval st.gate now).1 },
   fetch.toResult.map (quoteReturn amount), 1,
   getQuoteParams src dst amount opts)

/-- The options object of `buildSwap` (part_002 lines 175-179). -/
structure SwapOpts where
  slippage : JSValue
  receiver : JSValue
  allowPartialFill : Bool
  referrer : JSValue
deriving Repr, DecidableEq

/-- The query parameters `OneInchTradingApp.buildSwap` appends, in order
(part_002 lines 170-179): `src`, `dst`, `amount`, `from` always; `slippage`
is `options.slippage || 1`, so a falsy slippage (absent, `null`, or `0`) is
replaced by the default `1`; the remaining options only when truthy. -/
def buildSwapParams (src dst amount fromAddress : String) (opts : SwapOpts) :
    List (String × String) :=
  [("src", src), ("dst", dst), ("amount", amount), ("from", fromAddress),
   ("slippage", if opts.slippage.truthy then opts.slippage.render else "1")]
    ++ (if opts.receiver.truthy then [("receiver", opts.receiver.render)] else [])
    ++ (if opts.allowPartialFill then [("allowPartialFill", "true")] else [])
    ++ (if opts.referrer.truthy then [("referrer", opts.referrer.render)] else [])

/-- The query parameters `OneInchAPI.buildSwap` in the live-test client
appends (test-1inch-live.js lines 82-91): the same `options.slippage || 1`
defaulting; no further options. -/
def testClientBuildSwapParams (src dst amount fromAddress : String)
    (slippage : JSValue) : List (String × String) :=
  [("src", src), ("dst", dst), ("amount", amount), ("from", fromAddress),
   ("slippage", if slippage.truthy then slippage.render else "1")]

/-- The query parameters `buildApproval` appends (part_002 lines 209-215):
`tokenAddress` always; `amount` only when the argument is truthy — the
default `null` and any falsy argument (`0`, `""`, `null`) are omitted
alike. -/
def buildApprovalParams (tokenAddress : String) (amount : JSValue) :
    List (String × String) :=
  [("tokenAddress", tokenAddress)]
    ++ (if amount.truthy then [("amount", amount.render)] else [])

/-- The CORS origin the proxy allows (backend-server.js lines 13-16). -/
def corsOrigin : String := "http://localhost:3000"

/-- `if (value) url.searchParams.append(key, value)` over `req.query`
(backend-server.js lines 59-61): Express query values are strings, so a
parameter is forwarded exactly when its value is non-empty. -/
def forwardedParams (query : List (String × String)) : List (String × String) :=
  query.filter (fun kv => kv.2 != "")

/-- The body a proxy endpoint sends back: either the upstream JSON relayed
via `res.json(data)`, or the `{ error, details }` wrapper built in the catch
block. -/
inductive ProxyBody where
  | relayed (upstreamBody : String)
  | errorWrapper (error : String) (details : String)
deriving Repr, DecidableEq

/-- What one proxy endpoint does with one request: the query parameters it
forwarded upstream, the HTTP status and body it answered with, and the CORS
origin header the `cors` middleware attaches to every response. -/
structure ProxyResult where
  forwarded : List (String × String)
  status : Nat
  body : ProxyBody
  corsAllowOrigin : String
deriving Repr, DecidableEq

/-- The GET /api/quote handler (backend-server.js lines 52-82): truthy query
parameters are appended to the upstream URL; an upstream 2xx body is parsed
and re-sent with Express's default status 200; an upstream non-2xx makes the
handler throw `HTTP <status>: <text>`, and the catch block answers 500 with
`{ error: 'Failed to get quote', details }` — the upstream status and body
are not relayed. -/
def proxyQuote (query : List (String × String)) (upstream : FetchOutcome String) :
    ProxyResult :=
  { forwarded := forwardedParams query
    status := match upstream with | .ok _ => 200 | .httpError _ _ => 500
    body := match upstream with
      | .ok b => .relayed b
      | .httpError s t =>
          .errorWrapper "Failed to get quote" ("HTTP " ++ toString s ++ ": " ++ t)
    corsAllowOrigin := corsOrigin }

/-- The GET /api/tokens handler (backend-server.js lines 27-49): the upstream
URL is fixed — the caller's query parameters are never forwarded; success and
failure are handled exactly as in `proxyQuote`, with the wrapper message
`'Failed to fetch tokens'`. -/
def proxyTokens (upstream : FetchOutcome String) : ProxyResult :=
  { forwarded := []
    status := match upstream with | .ok _ => 200 | .httpError _ _ => 500
    body := match upstream with
      | .ok b => .relayed b
      | .httpError s t =>
          .errorWrapper "Failed to fetch tokens" ("HTTP " ++ toString s ++ ": " ++ t)
    corsAllowOrigin := corsOrigin }

/-- A sample token map (USDC, from the common-token table at part_002 lines
37-44), used to instantiate the cache theorems. -/
def sampleTokens : TokensMap :=
  [("0xa0b86991c6218b36c1d19d4a2e9eb0ce3606eb48",
    ⟨"0xa0b86991c6218b36c1d19d4a2e9eb0ce3606eb48", "USDC", "USD Coin", 6⟩)]

/-- An upstream that answers 429 to the first attempt and 200 to any retry. -/
def upstream429 : Nat → FetchOutcome String := fun k =>
  match k with
  | 0 => .httpError 429 "rate limited"
  | _ => .ok "quote-body"

/-- An upstream that always answers 200. -/
def upstream200 : Nat → FetchOutcome String := fun _ => .ok "quote-body"

/-- A client state whose caches hold five-minute-old entries — a real token
map and a real protocol list — both due for refresh. -/
def staleState : AppState :=
  ⟨⟨0⟩, some sampleTokens, 0, some [⟨"REAL_DEX", "Real DEX"⟩], 0⟩

/-! ## Helper lemmas -/

/-- A fresh tokens-cache hit returns the cached value, issues no outbound
request, and leaves the whole state — the pacing gate included — unchanged. -/
theorem getSupportedTokens_hit (st : AppState) (c : TokensMap) (now done : Int)
    (f : FetchOutcome TokensResult) (hc : st.tokensCache = some c)
    (h : now - st.tokensCacheTime < cacheExpiry) :
    getSupportedTokens st now done f = (st, .ok c, 0, now) := by
  unfold getSupportedTokens
  rw [hc]
  simp [h]

/-- A stale tokens cache sends the call down the miss path. -/
theorem getSupportedTokens_refreshes (st : AppState) (now done : Int)
    (f : FetchOutcome TokensResult)
    (h : ¬ now - st.tokensCacheTime < cacheExpiry) :
    getSupportedTokens st now done f = getSupportedTokensMiss st now done f := by
  unfold getSupportedTokens
  cases hc : st.tokensCache with
  | none => rfl
  | some c => simp [h]

/-- The miss path issues exactly one outbound request. -/
theorem getSupportedTokensMiss_count (st : AppState) (now done : Int)
    (f : FetchOutcome TokensResult) :
    (getSupportedTokensMiss st now done f).2.2.1 = 1 := by
  cases f <;> rfl

/-- A protocols cache that is absent or stale sends the call down the miss
path. -/
theorem getSupportedProtocols_refreshes (st : AppState) (now : Int)
    (fetches : List (FetchOutcome ProtocolsBody))
    (h : ¬ now - st.protocolsCacheTime < cacheExpiry) :
    getSupportedProtocols st now fetches =
      getSupportedProtocolsMiss st now fetches := by
  unfold getSupportedProtocols
  cases hc : st.protocolsCache with
  | none => rfl
  | some c => simp [h]

/-- A sequential dispatch leaves the gate holding exactly the dispatch time. -/
theorem rateLimitedDispatch_state (interval : Int) (g : Gate) (t : Int) :
    (rateLimitedDispatch interval g t).1.lastRequest =
      (rateLimitedDispatch interval g t).2 := by
  unfold rateLimitedDispatch
  split <;> rfl

/-- A sequential dispatch happens no earlier than `lastRequest + interval`. -/
theorem rateLimitedDispatch_spacing (interval : Int) (g : Gate) (t : Int) :
    g.lastRequest + interval ≤ (rateLimitedDispatch interval g t).2 := by
  unfold rateLimitedDispatch
  split
  · omega
  · omega

/-- Consecutive dispatches of non-overlapping calls are at least `interval`
apart. -/
theorem seqDispatches_chain (interval : Int) (g : Gate) (ts : List Int) :
    List.Chain' (fun a b => a + interval ≤ b) (seqDispatches interval g ts) := by
  induction ts generalizing g with
  | nil => simp [seqDispatches]
  | cons t ts ih =>
      rw [seqDispatches, List.chain'_cons']
      refine ⟨?_, ih _⟩
      intro y hy
      cases ts with
      | nil => simp [seqDispatches] at hy
      | cons u us =>
          rw [seqDispatches] at hy
          simp only [List.head?_cons, Option.mem_def, Option.some.injEq] at hy
          subst hy
          rw [← rateLimitedDispatch_state interval g t]
          exact rateLimitedDispatch_spacing _ _ _

/-! ## Claims -/

/-- C1 (amended): the pacing gate spaces out *sequential* callers: for any run
of non-overlapping calls through `rateLimitedRequest`, consecutive outbound
dispatch times differ by at least `requestInterval` (1000 ms), whatever the
call times and the initial gate state. -/
theorem sequential_dispatch_spacing (g : Gate) (ts : List Int) :
    List.Chain' (fun a b => a + requestInterval ≤ b)
      (seqDispatches requestInterval g ts) :=
  seqDispatches_chain requestInterval g ts

/-- C1 (counterexample): three `getQuote` calls issued concurrently at
`T = 2000` on a long-idle gate (`lastRequest = 0`) dispatch at `2000`, `3000`
and `3000`: a sleeping caller never re-checks the gate on waking, so the 2nd
and 3rd outbound requests leave at the same instant (0 ms apart, not ≥ 1000),
and the 3rd dispatch happens at `3000 < T + (3-1) * 1000 = 4000`. -/
theorem concurrent_dispatch_collision :
    concurrentDispatches requestInterval ⟨0⟩ 2000 3 = [2000, 3000, 3000] ∧
    ¬ ((2000 : Int) + (3 - 1) * requestInterval ≤ 3000) ∧
    ¬ (requestInterval ≤ 3000 - 3000) := by
  refine ⟨by decide, by decide, by decide⟩

/-- C2 (amended): two `getSupportedTokens` calls on one instance, the first on
an empty cache and successful: it issues one outbound request and stamps the
entry with its own entry time `now₁`.  A second call starting strictly less
than `cacheExpiry` after *`now₁`* (the recorded timestamp — the first call's
start, not the moment the cache write executed) returns the cached value with
zero outbound requests, leaving the whole state, pacing gate included,
untouched; a second call with at least `cacheExpiry` elapsed since `now₁`
issues a second outbound request. -/
theorem tokens_cache_freshness (g : Gate) (tt pt : Int)
    (pc : Option (List Protocol)) (now₁ done₁ : Int) (r : TokensResult) :
    (getSupportedTokens ⟨g, none, tt, pc, pt⟩ now₁ done₁ (.ok r)).2.2.1 = 1 ∧
    (getSupportedTokens ⟨g, none, tt, pc, pt⟩ now₁ done₁ (.ok r)).2.1 = .ok r.tokens ∧
    (getSupportedTokens ⟨g, none, tt, pc, pt⟩ now₁ done₁ (.ok r)).1.tokensCacheTime = now₁ ∧
    (∀ (now₂ done₂ : Int) (f₂ : FetchOutcome TokensResult),
        now₂ - now₁ < cacheExpiry →
        getSupportedTokens (getSupportedTokens ⟨g, none, tt, pc, pt⟩ now₁ done₁ (.ok r)).1
            now₂ done₂ f₂ =
          ((getSupportedTokens ⟨g, none, tt, pc, pt⟩ now₁ done₁ (.ok r)).1,
           .ok r.tokens, 0, now₂)) ∧
    (∀ (now₂ done₂ : Int) (f₂ : FetchOutcome TokensResult),
        ¬ now₂ - now₁ < cacheExpiry →
        (getSupportedTokens (getSupportedTokens ⟨g, none, tt, pc, pt⟩ now₁ done₁ (.ok r)).1
            now₂ done₂ f₂).2.2.1 = 1) := by
  refine ⟨rfl, rfl, rfl, ?_, ?_⟩
  · intro now₂ done₂ f₂ h
    exact getSupportedTokens_hit _ _ _ _ _ rfl h
  · intro now₂ done₂ f₂ h
    rw [getSupportedTokens_refreshes _ _ _ _ h]
    exact getSupportedTokensMiss_count _ _ _ _

/-- C2 (witness): concrete instance of `tokens_cache_freshness` — first call
at time 0, a hit 200000 ms later, a refetch 300000 ms later. -/
theorem tokens_cache_freshness_witness :
    getSupportedTokens
        (getSupportedTokens ⟨⟨0⟩, none, 0, none, 0⟩ 0 100 (.ok ⟨sampleTokens⟩)).1
        200000 200100 (.httpError 500 "down") =
      ((getSupportedTokens ⟨⟨0⟩, none, 0, none, 0⟩ 0 100 (.ok ⟨sampleTokens⟩)).1,
       .ok sampleTokens, 0, 200000) ∧
    (getSupportedTokens
        (getSupportedTokens ⟨⟨0⟩, none, 0, none, 0⟩ 0 100 (.ok ⟨sampleTokens⟩)).1
        300000 300100 (.httpError 500 "down")).2.2.1 = 1 :=
  ⟨(tokens_cache_freshness ⟨0⟩ 0 0 none 0 100 ⟨sampleTokens⟩).2.2.2.1
      200000 200100 (.httpError 500 "down") (by decide),
   (tokens_cache_freshness ⟨0⟩ 0 0 none 0 100 ⟨sampleTokens⟩).2.2.2.2
      300000 300100 (.httpError 500 "down") (by decide)⟩

/-- C2 (counterexample): the entry is stamped with the call's start time, not
with the moment of the cache write.  First call at `now = 0` whose fetch
resolves at wall time 100 — the instant the cache assignment executes; a
second call at `now = 300000` starts 299900 ms (strictly less than
`cacheExpiry`) after that write, yet the client treats the entry as expired
and issues a second outbound HTTP request instead of returning the cached
value. -/
theorem tokens_cache_write_time_cex :
    (getSupportedTokens ⟨⟨0⟩, none, 0, none, 0⟩ 0 100 (.ok ⟨sampleTokens⟩)).2.2.2 = 100 ∧
    (getSupportedTokens ⟨⟨0⟩, none, 0, none, 0⟩ 0 100 (.ok ⟨sampleTokens⟩)).1.tokensCache =
      some sampleTokens ∧
    ((300000 : Int) - 100 < cacheExpiry) ∧
    (getSupportedTokens
        (getSupportedTokens ⟨⟨0⟩, none, 0, none, 0⟩ 0 100 (.ok ⟨sampleTokens⟩)).1
        300000 300150 (.ok ⟨sampleTokens⟩)).2.2.1 = 1 := by
  refine ⟨rfl, rfl, by decide, ?_⟩
  rw [getSupportedTokens_refreshes _ _ _ _ (by decide)]
  exact getSupportedTokensMiss_count _ _ _ _

/-- C3 (amended): the client never retries: every operation performs exactly
one upstream attempt whatever the response; any non-2xx — 429, 5xx and other
4xx alike — surfaces `HTTP <status>: <body>` immediately after that single
attempt, so a 429 with a 200 available on retry still fails.  (The one part
of the claimed policy the code does satisfy is that a 4xx such as 401 fails
immediately with zero retries.) -/
theorem no_retry_single_attempt :
    (∀ (α : Type) (upstream : Nat → FetchOutcome α),
        (requestAttempts upstream).2 = 1) ∧
    (∀ (α : Type) (upstream : Nat → FetchOutcome α) (s : Nat) (t : String),
        upstream 0 = .httpError s t →
        (requestAttempts upstream).1 =
          .error ("HTTP " ++ toString s ++ ": " ++ t)) ∧
    (∀ (α : Type) (upstream : Nat → FetchOutcome α) (b : α),
        upstream 0 = .ok b → (requestAttempts upstream).1 = .ok b) := by
  refine ⟨fun α u => rfl, ?_, ?_⟩
  · intro α u s t h
    simp [requestAttempts, h, FetchOutcome.toResult]
  · intro α u b h
    simp [requestAttempts, h, FetchOutcome.toResult]

/-- C3 (witness): `no_retry_single_attempt` at the concrete upstreams. -/
theorem no_retry_single_attempt_witness :
    (requestAttempts upstream429).2 = 1 ∧
    (requestAttempts upstream429).1 =
      .error ("HTTP " ++ toString 429 ++ ": " ++ "rate limited") ∧
    (requestAttempts upstream200).1 = .ok "quote-body" :=
  ⟨no_retry_single_attempt.1 String upstream429,
   no_retry_single_attempt.2.1 String upstream429 429 "rate limited" rfl,
   no_retry_single_attempt.2.2 String upstream200 "quote-body" rfl⟩

/-- C3 (counterexample): an upstream that answers 429 to the first attempt
and 200 to any retry.  The code makes exactly one attempt and surfaces the
429 error — it does not retry with backoff to the available success. -/
theorem retry_429_cex :
    requestAttempts upstream429 = (.error "HTTP 429: rate limited", 1) ∧
    upstream429 1 = .ok "quote-body" := by
  constructor
  · rfl
  · rfl

/-- C4 (amended): `getQuote` performs no local validation: every call — an
`amountAtomic` of `"0"`, `source` equal to `destination`, any slippage —
issues exactly one outbound HTTP request carrying the arguments verbatim,
and its outcome depends only on the upstream response (a 2xx yields the
quote, a non-2xx yields `HTTP <status>: <body>`); no `InvalidParameters`
failure exists in the code. -/
theorem getQuote_no_local_checks (st : AppState) (now : Int)
    (src dst amount : String) (opts : QuoteOpts) :
    (∀ f, (getQuote st now src dst amount opts f).2.2.1 = 1) ∧
    (∀ f, (getQuote st now src dst amount opts f).2.2.2 =
        getQuoteParams src dst amount opts) ∧
    ("src", src) ∈ getQuoteParams src dst amount opts ∧
    ("dst", dst) ∈ getQuoteParams src dst amount opts ∧
    ("amount", amount) ∈ getQuoteParams src dst amount opts ∧
    (∀ b, (getQuote st now src dst amount opts (.ok b)).2.1 =
        .ok (quoteReturn amount b)) ∧
    (∀ s t, (getQuote st now src dst amount opts (.httpError s t)).2.1 =
        .error ("HTTP " ++ toString s ++ ": " ++ t)) := by
  refine ⟨fun f => rfl, fun f => rfl, ?_, ?_, ?_, fun b => rfl, fun s t => rfl⟩
  all_goals simp [getQuoteParams]

/-- C4 (counterexample): `getQuote` with `amountAtomic = "0"` and
`source = destination` does not fail with `InvalidParameters` before the
network: it issues one outbound request (count 1, query carrying `amount=0`
and `src = dst`) and succeeds whenever the upstream does. -/
theorem getQuote_zero_amount_cex :
    (getQuote ⟨⟨0⟩, none, 0, none, 0⟩ 1500 "0xToken" "0xToken" "0"
        ⟨.undef, .undef, .undef⟩ (.ok ⟨"5", []⟩)).2.2.1 = 1 ∧
    (getQuote ⟨⟨0⟩, none, 0, none, 0⟩ 1500 "0xToken" "0xToken" "0"
        ⟨.undef, .undef, .undef⟩ (.ok ⟨"5", []⟩)).2.2.2 =
      [("src", "0xToken"), ("dst", "0xToken"), ("amount", "0")] ∧
    (getQuote ⟨⟨0⟩, none, 0, none, 0⟩ 1500 "0xToken" "0xToken" "0"
        ⟨.undef, .undef, .undef⟩ (.ok ⟨"5", []⟩)).2.1 =
      .ok (quoteReturn "0" ⟨"5", []⟩) :=
  ⟨rfl, rfl, rfl⟩

/-- C5 (amended): a failed *tokens* refresh leaves the previous cache entry
and its timestamp untouched and surfaces the upstream error; but a protocols
refresh in which every endpoint fails reports no error at all — it replaces
the previously cached list with the hard-coded mock protocols and returns
them as a success. -/
theorem refresh_failure_behavior :
    (∀ (st : AppState) (now done : Int) (s : Nat) (t : String),
        ¬ now - st.tokensCacheTime < cacheExpiry →
        (getSupportedTokens st now done (.httpError s t)).1.tokensCache =
            st.tokensCache ∧
        (getSupportedTokens st now done (.httpError s t)).1.tokensCacheTime =
            st.tokensCacheTime ∧
        (getSupportedTokens st now done (.httpError s t)).2.1 =
            .error ("HTTP " ++ toString s ++ ": " ++ t)) ∧
    (∀ (st : AppState) (now : Int) (s₁ s₂ s₃ : Nat) (t₁ t₂ t₃ : String),
        ¬ now - st.protocolsCacheTime < cacheExpiry →
        (getSupportedProtocols st now
            [.httpError s₁ t₁, .httpError s₂ t₂, .httpError s₃ t₃]).2.1 =
          .ok mockProtocols ∧
        (getSupportedProtocols st now
            [.httpError s₁ t₁, .httpError s₂ t₂, .httpError s₃ t₃]).1.protocolsCache =
          some mockProtocols) := by
  constructor
  · intro st now done s t h
    rw [getSupportedTokens_refreshes _ _ _ _ h]
    exact ⟨rfl, rfl, rfl⟩
  · intro st now s₁ s₂ s₃ t₁ t₂ t₃ h
    rw [getSupportedProtocols_refreshes _ _ _ h]
    exact ⟨rfl, rfl⟩

/-- C5 (witness): `refresh_failure_behavior` on a state with five-minute-old
entries in both caches, at time 300000. -/
theorem refresh_failure_behavior_witness :
    ((getSupportedTokens staleState 300000 300100 (.httpError 500 "boom")).1.tokensCache =
        staleState.tokensCache ∧
      (getSupportedTokens staleState 300000 300100 (.httpError 500 "boom")).1.tokensCacheTime =
        staleState.tokensCacheTime ∧
      (getSupportedTokens staleState 300000 300100 (.httpError 500 "boom")).2.1 =
        .error ("HTTP " ++ toString 500 ++ ": " ++ "boom")) ∧
    ((getSupportedProtocols staleState 300000
        [.httpError 502 "bad", .httpError 500 "down", .httpError 404 "gone"]).2.1 =
      .ok mockProtocols ∧
    (getSupportedProtocols staleState 300000
        [.httpError 502 "bad", .httpError 500 "down", .httpError 404 "gone"]).1.protocolsCache =
      some mockProtocols) :=
  ⟨refresh_failure_behavior.1 staleState 300000 300100 500 "boom" (by decide),
   refresh_failure_behavior.2 staleState 300000 502 500 404 "bad" "down" "gone" (by decide)⟩

/-- C5 (counterexample): a client holding a real, five-minute-old protocol
list refreshes while every endpoint fails: the call reports *success* with
the fabricated mock list and overwrites the previously cached entry with it —
no error is surfaced and the previous entry is not preserved. -/
theorem protocols_mock_fallback_cex :
    (getSupportedProtocols staleState 300000
        [.httpError 500 "down", .httpError 500 "down", .httpError 404 "gone"]).2.1 =
      .ok mockProtocols ∧
    (getSupportedProtocols staleState 300000
        [.httpError 500 "down", .httpError 500 "down", .httpError 404 "gone"]).1.protocolsCache =
      some mockProtocols ∧
    staleState.protocolsCache = some [⟨"REAL_DEX", "Real DEX"⟩] ∧
    some mockProtocols ≠ staleState.protocolsCache := by
  refine ⟨?_, ?_, rfl, by decide⟩
  · rw [getSupportedProtocols_refreshes _ _ _ (by decide)]
    rfl
  · rw [getSupportedProtocols_refreshes _ _ _ (by decide)]
    rfl

/-- C6 (amended): each proxy endpoint forwards only the query parameters with
truthy (non-empty) values — `/api/tokens` forwards none at all, its upstream
URL being fixed; on an upstream 2xx it relays the JSON body with Express's
default status 200; on an upstream non-2xx it does *not* relay the upstream
status and body but answers 500 with an `{ error, details }` wrapper; every
response carries the CORS header for `http://localhost:3000`. -/
theorem proxy_relay_behavior (query : List (String × String)) :
    (∀ b, proxyQuote query (.ok b) =
        ⟨forwardedParams query, 200, .relayed b, corsOrigin⟩) ∧
    (∀ s t, proxyQuote query (.httpError s t) =
        ⟨forwardedParams query, 500,
         .errorWrapper "Failed to get quote" ("HTTP " ++ toString s ++ ": " ++ t),
         corsOrigin⟩) ∧
    (∀ k v, (k, v) ∈ forwardedParams query ↔ ((k, v) ∈ query ∧ v ≠ "")) ∧
    (∀ u, (proxyTokens u).forwarded = []) ∧
    (∀ u, (proxyTokens u).corsAllowOrigin = corsOrigin) := by
  refine ⟨fun b => rfl, fun s t => rfl, ?_, fun u => rfl, fun u => rfl⟩
  intro k v
  simp [forwardedParams, List.mem_filter]

/-- C6 (counterexample): the caller sends `src=0xA` and an empty `fee`, and
the upstream answers 401 Unauthorized.  The proxy forwards only `src` (the
empty-valued parameter is dropped, not forwarded verbatim), and answers 500 —
not 401 — with a `{ error, details }` wrapper instead of the upstream body. -/
theorem proxy_upstream_error_cex :
    (proxyQuote [("src", "0xA"), ("fee", "")] (.httpError 401 "Unauthorized")).forwarded =
      [("src", "0xA")] ∧
    (proxyQuote [("src", "0xA"), ("fee", "")] (.httpError 401 "Unauthorized")).forwarded ≠
      [("src", "0xA"), ("fee", "")] ∧
    (proxyQuote [("src", "0xA"), ("fee", "")] (.httpError 401 "Unauthorized")).status = 500 ∧
    (proxyQuote [("src", "0xA"), ("fee", "")] (.httpError 401 "Unauthorized")).status ≠ 401 ∧
    (proxyQuote [("src", "0xA"), ("fee", "")] (.httpError 401 "Unauthorized")).body =
      .errorWrapper "Failed to get quote" "HTTP 401: Unauthorized" := by
  refine ⟨rfl, by decide, rfl, by decide, rfl⟩

/-- C7 (amended): `buildApproval` with no amount argument omits the amount
parameter from the outbound request entirely — no sentinel is sent; a
*truthy* supplied amount is appended verbatim (via `.toString()`); but a
falsy supplied amount is omitted exactly like the default, so "supplied"
alone does not guarantee pass-through. -/
theorem buildApproval_amount_handling (tok : String) :
    buildApprovalParams tok .undef = [("tokenAddress", tok)] ∧
    (∀ v : JSValue, v.truthy = true →
        buildApprovalParams tok v = [("tokenAddress", tok), ("amount", v.render)]) ∧
    (∀ v : JSValue, v.truthy = false →
        buildApprovalParams tok v = [("tokenAddress", tok)]) := by
  refine ⟨rfl, ?_, ?_⟩
  · intro v h
    simp [buildApprovalParams, h]
  · intro v h
    simp [buildApprovalParams, h]

/-- C7 (witness): `buildApproval_amount_handling` at a concrete token, with a
truthy amount `"100"` and a falsy amount `null`. -/
theorem buildApproval_amount_handling_witness :
    buildApprovalParams "0xTok" .undef = [("tokenAddress", "0xTok")] ∧
    buildApprovalParams "0xTok" (.str "100") =
      [("tokenAddress", "0xTok"), ("amount", (JSValue.str "100").render)] ∧
    buildApprovalParams "0xTok" .null = [("tokenAddress", "0xTok")] :=
  ⟨(buildApproval_amount_handling "0xTok").1,
   (buildApproval_amount_handling "0xTok").2.1 (.str "100") (by decide),
   (buildApproval_amount_handling "0xTok").2.2 .null (by decide)⟩

/-- C7 (counterexample): the amount `0` is supplied explicitly, yet the
outbound request carries no amount parameter at all — identical to the
no-argument call — instead of passing the supplied value through verbatim. -/
theorem buildApproval_zero_amount_cex :
    buildApprovalParams "0xTok" (.num 0) = [("tokenAddress", "0xTok")] ∧
    buildApprovalParams "0xTok" (.num 0) = buildApprovalParams "0xTok" .undef ∧
    buildApprovalParams "0xTok" (.num 0) ≠
      [("tokenAddress", "0xTok"), ("amount", (JSValue.num 0).render)] := by
  refine ⟨by decide, by decide, by decide⟩

/-- C8: the destination amount of a successful quote is the upstream
`dstAmount` string, character for character: `getQuote` copies it into
`outputAmount` unchanged and keeps the body itself intact — no unit
conversion touches it.  In particular an upstream `"3868650000"` comes back
as exactly `"3868650000"`. -/
theorem quote_output_verbatim (st : AppState) (now : Int)
    (src dst amount : String) (opts : QuoteOpts) (body : QuoteBody) :
    (getQuote st now src dst amount opts (.ok body)).2.1 =
      .ok (quoteReturn amount body) ∧
    (quoteReturn amount body).outputAmount = body.dstAmount ∧
    (quoteReturn amount body).body = body ∧
    (quoteReturn "1000000000000000000" ⟨"3868650000", []⟩).outputAmount =
      "3868650000" :=
  ⟨rfl, rfl, rfl, rfl⟩

/-- C9: a falsy amount supplied to `buildApproval` — the number `0`, the
empty string, or `null` — is omitted from the outbound request exactly as if
no amount had been given, while any truthy amount (including the *string*
`"0"`, which is truthy in JavaScript) is transmitted verbatim. -/
theorem buildApproval_falsy_supplied (tok : String) :
    buildApprovalParams tok (.num 0) = buildApprovalParams tok .undef ∧
    buildApprovalParams tok (.str "") = buildApprovalParams tok .undef ∧
    buildApprovalParams tok .null = buildApprovalParams tok .undef ∧
    "amount" ∉ (buildApprovalParams tok (.num 0)).map Prod.fst ∧
    buildApprovalParams tok (.str "0") = [("tokenAddress", tok), ("amount", "0")] ∧
    (∀ v : JSValue, v.truthy = true →
        buildApprovalParams tok v = [("tokenAddress", tok), ("amount", v.render)]) := by
  refine ⟨rfl, rfl, rfl, ?_, rfl, ?_⟩
  · simp [buildApprovalParams, JSValue.truthy]
  · intro v h
    simp [buildApprovalParams, h]

/-- C9 (witness): `buildApproval_falsy_supplied` at a concrete token, its
truthy branch taken at the amount `5`. -/
theorem buildApproval_falsy_supplied_witness :
    buildApprovalParams "0xUSDC" (.num 0) = buildApprovalParams "0xUSDC" .undef ∧
    buildApprovalParams "0xUSDC" (.num 5) =
      [("tokenAddress", "0xUSDC"), ("amount", (JSValue.num 5).render)] :=
  ⟨(buildApproval_falsy_supplied "0xUSDC").1,
   (buildApproval_falsy_supplied "0xUSDC").2.2.2.2.2 (.num 5) (by decide)⟩

/-- C10: a slippage option equal to `0` is never transmitted: `getQuote`
omits the slippage parameter entirely (its query carries no `slippage` key),
and both `buildSwap` copies — the trading app's and the live-test client's —
send `slippage=1` instead, whatever the other options are. -/
theorem slippage_zero_never_sent (src dst amount fromAddress : String)
    (p f recv ref : JSValue) (apf : Bool) :
    (getQuoteParams src dst amount ⟨.num 0, p, f⟩).filter
        (fun kv => kv.1 == "slippage") = [] ∧
    ("slippage", "1") ∈ buildSwapParams src dst amount fromAddress
        ⟨.num 0, recv, apf, ref⟩ ∧
    (buildSwapParams src dst amount fromAddress ⟨.num 0, recv, apf, ref⟩).filter
        (fun kv => kv.1 == "slippage") = [("slippage", "1")] ∧
    testClientBuildSwapParams src dst amount fromAddress (.num 0) =
      [("src", src), ("dst", dst), ("amount", amount), ("from", fromAddress),
       ("slippage", "1")] := by
  refine ⟨?_, ?_, ?_, rfl⟩
  · cases hp : p.truthy <;> cases hf : f.truthy <;>
      simp [getQuoteParams, JSValue.truthy, hp, hf]
  · cases hr : recv.truthy <;> cases apf <;> cases hrf : ref.truthy <;>
      simp [buildSwapParams, JSValue.truthy, hr, hrf]
  · cases hr : recv.truthy <;> cases apf <;> cases hrf : ref.truthy <;>
      simp [buildSwapParams, JSValue.truthy, hr, hrf]

end OneInch
